import Mathlib

/-!
Verification development for `src/static/images/generate_hero.py`, a PIL
script that composes a 1000x420 hero banner: a solid background canvas, a
resampled chart asset pasted on the right, a left-side per-pixel blend
toward the background color, five text strings and one accent rectangle,
serialized to a PNG.

Conventions of the shallow embedding:

* Python integers are `ℤ` (or `ℕ` where the source value is a size or an
  index); Python `//` (floor division) is `Int.fdiv` on `ℤ` and `/` on `ℕ`.
* Python float expressions that are immediately truncated with `int(...)`
  are modelled by exact rational arithmetic followed by floor.  At every
  value the development evaluates, the float computation is far from an
  integer boundary, so the exact model and the float agree.
* A PIL image is a `Canvas`: a width, a height and a total pixel map.
  The PIL operations used by the script (`paste`, `putpixel`, text and
  rectangle drawing) never change an image's size, which the embedding
  reflects by construction.
* LANCZOS resampling and glyph rasterisation happen inside PIL, outside
  this repository; they are modelled as functional parameters of the
  pipeline (`Resample`, `Renderer`).  Every decision made by the script
  itself (sizes, positions, the mask choice on `paste`, the per-channel
  blend arithmetic, the drawing order) is embedded from the source.
* The masked-paste blend is PIL's `BLEND`/`MULDIV255` integer arithmetic
  from `Paste.c` (`out = muldiv255(dst, 255-mask) + muldiv255(src, mask)`
  with `muldiv255(a,b) = ((t >> 8) + t) >> 8` for `t = a*b + 128`).
-/

namespace GenerateHero

/-- Line 5: `width = 1000`. -/
def width : ℕ := 1000

/-- Line 6: `height = 420`. -/
def height : ℕ := 420

/-- A pixel color: an RGB triple of Python integers. -/
abbrev RGB := ℤ × ℤ × ℤ

/-- Line 7: `bg_color = (15, 23, 42)`. -/
def bg_color : RGB := (15, 23, 42)

/-- An in-memory raster: dimensions plus a total pixel map. -/
structure Canvas where
  w : ℕ
  h : ℕ
  px : ℕ × ℕ → RGB

/-- Line 10: `img = Image.new('RGB', (width, height), bg_color)`. -/
def imageNew (w h : ℕ) (c : RGB) : Canvas := ⟨w, h, fun _ => c⟩

/-- PIL `Image.putpixel`: replace one pixel, keep the dimensions. -/
def putpixel (img : Canvas) (p : ℕ × ℕ) (c : RGB) : Canvas :=
  ⟨img.w, img.h, fun q => if q = p then c else img.px q⟩

/-- The PIL image modes relevant to the script: `sensor_img.mode` is
compared against the literal `'RGBA'` on line 25.  `LA` (grayscale with
alpha) is a mode PIL produces for grayscale PNGs with transparency; it
carries a per-pixel alpha channel but is not `RGBA`. -/
inductive Mode
  | RGB
  | RGBA
  | LA
  deriving DecidableEq

/-- A loaded raster asset: its mode, its dimensions, its pixel content as
converted to RGB when pasted onto an RGB image, and its per-pixel alpha
(255 everywhere for modes without transparency). -/
structure Asset where
  mode : Mode
  w : ℕ
  h : ℕ
  rgb : ℕ × ℕ → RGB
  alpha : ℕ × ℕ → ℤ

/-- Line 18: `sensor_width = 500`. -/
def sensor_width : ℕ := 500

/-- Line 19 computes `int(sensor_img.height * (sensor_width / sensor_img.width))`
in IEEE double precision.  `sensor_height` is the exact-rational reading:
the floor of `h * 500 / w`.  The double computation tracks a value within
relative error `2 ^ (-51)` of that ratio (see `fp_contract` below) and its
truncation can land one to either side of this exact floor, so C3-style
statements about the program's height are proved against the contract;
nothing else proved about the pipeline depends on the height's value. -/
def sensor_height (w h : ℕ) : ℕ := h * sensor_width / w

/-- Error contract of line 19's float evaluation.  For PNG-representable
dimensions (`1 ≤ w, h < 2 ^ 31`) the operands `h`, `500` and `w` convert
to doubles exactly (they are below `2 ^ 53`), both intermediate values of
`h * (500 / w)` lie deep inside the normal double range, and each of the
two operations (the division, then the multiplication) is correctly
rounded with relative error at most `2 ^ (-53)`.  The computed value `q`
therefore satisfies `|q - E| ≤ E * ((1 + 2 ^ (-53))^2 - 1) ≤ E * 2 ^ (-51)`
for the exact ratio `E = h * (500 / w)`. -/
abbrev fp_contract (w h : ℕ) (q : ℚ) : Prop :=
  |q - (h : ℚ) * ((sensor_width : ℚ) / (w : ℚ))|
    ≤ (h : ℚ) * ((sensor_width : ℚ) / (w : ℚ)) * (1 / 2 ^ 51)

/-- Line 19's outer `int(...)`: truncation toward zero of the computed
double, which for the nonnegative values at hand is its floor. -/
def sensor_height_fp (q : ℚ) : ℕ := (⌊q⌋).toNat

/-- Stated from the spec's words, for comparison with `sensor_height`:
round-to-nearest of `h * (sensor_width / w)` (round-half-up; the inputs the
development uses are not ties, where Python `round` would round half to
even). -/
def sensor_height_spec (w h : ℕ) : ℕ := (2 * (h * sensor_width) + w) / (2 * w)

/-- Line 23: `sensor_x = width - sensor_width - 20` (= 480). -/
def sensor_x : ℕ := width - sensor_width - 20

/-- Line 24: `sensor_y = (height - sensor_height) // 2`; Python `//` is
floor division and the value may be negative for tall assets. -/
def sensor_y (sh : ℕ) : ℤ := Int.fdiv ((height : ℤ) - (sh : ℤ)) 2

/-- PIL `MULDIV255(a, b)` from `Paste.c`: `t = a*b + 128; ((t >> 8) + t) >> 8`,
an integer approximation of `a*b/255` with rounding. -/
def muldiv255 (v m : ℤ) : ℤ :=
  Int.fdiv (v * m + 128 + Int.fdiv (v * m + 128) 256) 256

/-- PIL `BLEND(mask, dst, src)` from `Paste.c`, used by masked paste:
`muldiv255(dst, 255 - mask) + muldiv255(src, mask)`. -/
def blendCh (m s d : ℤ) : ℤ := muldiv255 d (255 - m) + muldiv255 s m

/-- Per-pixel masked-paste blend of a source pixel over a destination
pixel with mask value `m`. -/
def blendPix (m : ℤ) (s d : RGB) : RGB :=
  (blendCh m s.1 d.1, blendCh m s.2.1 d.2.1, blendCh m s.2.2 d.2.2)

/-- Line 25: `img.paste(sensor_img, (sensor_x, sensor_y),
sensor_img if sensor_img.mode == 'RGBA' else None)`.  Inside the pasted
region the destination pixel is the blend of the source over the
destination through the source's own alpha channel when the mode is
exactly `RGBA`; with mask `None` the source pixel simply overwrites the
destination.  Outside the region (PIL clips) the destination is kept. -/
def paste (img : Canvas) (a : Asset) (pos : ℤ × ℤ) : Canvas :=
  ⟨img.w, img.h, fun q =>
    if pos.1 ≤ (q.1 : ℤ) ∧ (q.1 : ℤ) < pos.1 + (a.w : ℤ) ∧
        pos.2 ≤ (q.2 : ℤ) ∧ (q.2 : ℤ) < pos.2 + (a.h : ℤ) then
      let r : ℕ × ℕ := (((q.1 : ℤ) - pos.1).toNat, ((q.2 : ℤ) - pos.2).toNat)
      if a.mode = Mode.RGBA then blendPix (a.alpha r) (a.rgb r) (img.px q)
      else a.rgb r
    else img.px q⟩

/-- Line 29: `alpha = int(255 * (1 - (x / sensor_x) * 0.3))`.  Exact
arithmetic: `255 * (1 - 0.3 * x / sensor_x) = 255 * (10*sensor_x - 3*x) /
(10*sensor_x)`, truncated; the loop only ever evaluates it for
`x < sensor_x`, where the numerator is positive. -/
def alpha (x : ℕ) : ℕ := 255 * (10 * sensor_x - 3 * x) / (10 * sensor_x)

/-- The un-clamped channel update of lines 33-35:
`current + (bg - current) * alpha // 255`. -/
def darkenRaw (cur bgc a : ℤ) : ℤ := cur + Int.fdiv ((bgc - cur) * a) 255

/-- The full channel update of lines 33-35, with the `min(255, ...)` clamp. -/
def darkenChannel (cur bgc a : ℤ) : ℤ := min 255 (darkenRaw cur bgc a)

/-- The per-pixel update of the gradient loop body (lines 31-36) at
column `x`: each channel moves toward the matching `bg_color` channel. -/
def darkenPix (x : ℕ) (c : RGB) : RGB :=
  (darkenChannel c.1 bg_color.1 (alpha x : ℤ),
   darkenChannel c.2.1 bg_color.2.1 (alpha x : ℤ),
   darkenChannel c.2.2 bg_color.2.2 (alpha x : ℤ))

/-- The inner loop of lines 30-36: for `y in range(height)`, read pixel
`(x, y)` and write back its darkened value. -/
def darkenCol (x : ℕ) (im : Canvas) : Canvas :=
  (List.range height).foldl
    (fun im2 y => putpixel im2 (x, y) (darkenPix x (im2.px (x, y)))) im

/-- The outer loop of lines 28-36: for `x in range(sensor_x)`, darken
column `x`. -/
def gradientLoop (img : Canvas) : Canvas :=
  (List.range sensor_x).foldl (fun im x => darkenCol x im) img

/-- A font handle: either a truetype font loaded by name and size, or the
built-in `ImageFont.load_default()` fallback. -/
inductive Font
  | truetype (name : String) (size : ℕ)
  | default
  deriving DecidableEq

/-- The font file name the script asks for on lines 40-42. -/
def arialName : String := "arial.ttf"

/-- The environment's answer to a font-load attempt: whether
`ImageFont.truetype(name, size)` raises. -/
abbrev FailOracle := String → ℕ → Bool

/-- Lines 39-46: the `try` block loads the three sizes in order; if any
attempt raises, the bare `except` assigns the default font to all three
handles.  A later failure discards the earlier successful handles. -/
def loadFonts (fails : FailOracle) : Font × Font × Font :=
  if fails arialName 48 then (Font.default, Font.default, Font.default)
  else if fails arialName 28 then (Font.default, Font.default, Font.default)
  else if fails arialName 20 then (Font.default, Font.default, Font.default)
  else (Font.truetype arialName 48, Font.truetype arialName 28,
        Font.truetype arialName 20)

/-- Glyph rasterisation, which lives inside PIL: given an anchor position,
a string, a fill color, a font and the current pixel map, produce the new
pixel map. -/
abbrev Renderer := ℕ × ℕ → String → RGB → Font → (ℕ × ℕ → RGB) → ℕ × ℕ → RGB

/-- `draw.text((x, y), s, fill=c, font=f)`: in-place pixel update through
the renderer; the image dimensions never change. -/
def drawText (t : Renderer) (pos : ℕ × ℕ) (s : String) (c : RGB) (f : Font)
    (img : Canvas) : Canvas :=
  ⟨img.w, img.h, t pos s c f img.px⟩

/-- Line 72: `draw.rectangle([(x0, y0), (x1, y1)], fill=c)`; PIL fills the
rectangle inclusive of both corners. -/
def drawRect (img : Canvas) (x0 y0 x1 y1 : ℕ) (c : RGB) : Canvas :=
  ⟨img.w, img.h, fun q =>
    if x0 ≤ q.1 ∧ q.1 ≤ x1 ∧ y0 ≤ q.2 ∧ q.2 ≤ y1 then c else img.px q⟩

/-- Line 49: `text_color = (226, 232, 240)`. -/
def text_color : RGB := (226, 232, 240)

/-- Line 50: `accent_color = (147, 197, 253)`. -/
def accent_color : RGB := (147, 197, 253)

/-- Line 51: `warning_color = (248, 113, 113)`. -/
def warning_color : RGB := (248, 113, 113)

/-- Line 68: the badge fill `(100, 116, 139)`, inline in the source. -/
def badge_color : RGB := (100, 116, 139)

/-- Line 55: `title_y = 80`. -/
def title_y : ℕ := 80

/-- Line 62: `subtitle_y = title_y + 130` (= 210). -/
def subtitle_y : ℕ := title_y + 130

/-- Line 67: `badge_y = height - 60` (= 360). -/
def badge_y : ℕ := height - 60

/-- Line 71: `line_y = subtitle_y - 20` (= 190). -/
def line_y : ℕ := subtitle_y - 20

/-- Line 54: `title_text = "Liskov Substitution"`. -/
def title_text : String := "Liskov Substitution"

/-- Line 58: `title_text2 = "Principle"`. -/
def title_text2 : String := "Principle"

/-- Line 63: the first subtitle string. -/
def subtitle_text1 : String := "When Your Cheap Sensor"

/-- Line 64: the second subtitle string. -/
def subtitle_text2 : String := "Breaks Everything"

/-- Line 68: the badge string. -/
def badge_text : String := "SOLID PRINCIPLES"

/-- LANCZOS resampling, which lives inside PIL: from the original asset
and the requested dimensions, produce the resampled pixel and alpha maps.
PIL `Image.resize` returns an image of exactly the requested dimensions
and of the same mode as its input. -/
abbrev Resample := Asset → ℕ → ℕ → (ℕ × ℕ → RGB) × (ℕ × ℕ → ℤ)

/-- Line 20: `sensor_img = sensor_img.resize((sensor_width, sensor_height),
Image.Resampling.LANCZOS)`. -/
def resize (resample : Resample) (a : Asset) (w h : ℕ) : Asset :=
  ⟨a.mode, w, h, (resample a w h).1, (resample a w h).2⟩

/-- The whole script, lines 10-72, as a function of the asset, the
resampling filter, the font environment and the glyph renderer: create the
canvas, resize and paste the asset, run the gradient loop, load the fonts,
draw the five strings and the accent rectangle. -/
def pipeline (resample : Resample) (a : Asset) (fails : FailOracle)
    (render : Renderer) : Canvas :=
  let img := imageNew width height bg_color
  let sh := sensor_height a.w a.h
  let sensor_img := resize resample a sensor_width sh
  let img1 := paste img sensor_img ((sensor_x : ℤ), sensor_y sh)
  let img2 := gradientLoop img1
  let fonts := loadFonts fails
  let img3 := drawText render (40, title_y) title_text text_color fonts.1 img2
  let img4 := drawText render (40, title_y + 55) title_text2 text_color fonts.1 img3
  let img5 := drawText render (40, subtitle_y) subtitle_text1 accent_color fonts.2.1 img4
  let img6 := drawText render (40, subtitle_y + 35) subtitle_text2 warning_color fonts.2.1 img5
  let img7 := drawText render (40, badge_y) badge_text badge_color fonts.2.2 img6
  drawRect img7 40 line_y 280 (line_y + 3) accent_color

/-- The freshly created canvas of line 10. -/
def base_canvas : Canvas := imageNew width height bg_color

/-- A concrete grayscale-with-alpha asset, fully transparent everywhere,
already at the pasted size. -/
def la_asset : Asset := ⟨Mode.LA, 500, 300, fun _ => (0, 0, 0), fun _ => 0⟩

/-- A concrete RGBA asset, fully transparent everywhere, already at the
pasted size. -/
def rgba_asset : Asset := ⟨Mode.RGBA, 500, 300, fun _ => (255, 255, 255), fun _ => 0⟩

/-- A concrete 1x1 opaque RGB asset. -/
def unit_asset : Asset := ⟨Mode.RGB, 1, 1, fun _ => (0, 0, 0), fun _ => 255⟩

/-- A concrete resampling filter (constant black, opaque). -/
def triv_resample : Resample := fun _ _ _ => (fun _ => (0, 0, 0), fun _ => 255)

/-- A concrete font environment in which every load succeeds. -/
def triv_fails : FailOracle := fun _ _ => false

/-- A concrete glyph renderer that draws nothing. -/
def triv_render : Renderer := fun _ _ _ _ p => p

lemma putpixel_px (img : Canvas) (p : ℕ × ℕ) (c : RGB) (q : ℕ × ℕ) :
    (putpixel img p c).px q = if q = p then c else img.px q := rfl

lemma darkenCol_aux (x n : ℕ) (im : Canvas) :
    ∀ a b : ℕ,
      ((List.range n).foldl
        (fun im2 y => putpixel im2 (x, y) (darkenPix x (im2.px (x, y)))) im).px (a, b)
        = if a = x ∧ b < n then darkenPix x (im.px (a, b)) else im.px (a, b) := by
  induction n with
  | zero => intro a b; simp
  | succ n ih =>
    intro a b
    rw [List.range_succ, List.foldl_append, List.foldl_cons, List.foldl_nil,
      putpixel_px, ih x n, ih a b]
    simp only [Prod.mk.injEq, lt_irrefl, and_false, if_false]
    split_ifs with h1 h2 h3 <;>
      first
        | rfl
        | (exfalso; omega)
        | (obtain ⟨ha, hb⟩ := h1; subst ha; subst hb; rfl)

lemma darkenCol_px (x : ℕ) (im : Canvas) (a b : ℕ) :
    (darkenCol x im).px (a, b)
      = if a = x ∧ b < height then darkenPix x (im.px (a, b)) else im.px (a, b) := by
  unfold darkenCol
  exact darkenCol_aux x height im a b

lemma gradientLoop_aux (m : ℕ) (im : Canvas) (a b : ℕ) :
    ((List.range m).foldl (fun im x => darkenCol x im) im).px (a, b)
      = if a < m ∧ b < height then darkenPix a (im.px (a, b)) else im.px (a, b) := by
  induction m with
  | zero => simp
  | succ m ih =>
    rw [List.range_succ, List.foldl_append, List.foldl_cons, List.foldl_nil,
      darkenCol_px, ih]
    split_ifs with h1 h2 h3 <;>
      first
        | rfl
        | (exfalso; omega)
        | (obtain ⟨ha, hb⟩ := h1; subst ha; rfl)

lemma gradientLoop_px (img : Canvas) (a b : ℕ) :
    (gradientLoop img).px (a, b)
      = if a < sensor_x ∧ b < height then darkenPix a (img.px (a, b)) else img.px (a, b) := by
  unfold gradientLoop
  exact gradientLoop_aux sensor_x img a b

lemma foldl_w (f : Canvas → ℕ → Canvas) (hf : ∀ im y, (f im y).w = im.w) :
    ∀ (l : List ℕ) (im : Canvas), (l.foldl f im).w = im.w := by
  intro l
  induction l with
  | nil => intro im; rfl
  | cons y t ih => intro im; rw [List.foldl_cons, ih, hf]

lemma foldl_h (f : Canvas → ℕ → Canvas) (hf : ∀ im y, (f im y).h = im.h) :
    ∀ (l : List ℕ) (im : Canvas), (l.foldl f im).h = im.h := by
  intro l
  induction l with
  | nil => intro im; rfl
  | cons y t ih => intro im; rw [List.foldl_cons, ih, hf]

lemma darkenCol_w (x : ℕ) (im : Canvas) : (darkenCol x im).w = im.w := by
  unfold darkenCol
  apply foldl_w
  intro im2 y
  rfl

lemma darkenCol_h (x : ℕ) (im : Canvas) : (darkenCol x im).h = im.h := by
  unfold darkenCol
  apply foldl_h
  intro im2 y
  rfl

lemma gradientLoop_w (img : Canvas) : (gradientLoop img).w = img.w := by
  unfold gradientLoop
  apply foldl_w
  intro im2 x
  exact darkenCol_w x im2

lemma gradientLoop_h (img : Canvas) : (gradientLoop img).h = img.h := by
  unfold gradientLoop
  apply foldl_h
  intro im2 x
  exact darkenCol_h x im2

lemma darkenRaw_bounds (cur bgc a : ℤ) (ha0 : 0 ≤ a) (ha1 : a ≤ 255) :
    min cur bgc ≤ darkenRaw cur bgc a ∧ darkenRaw cur bgc a ≤ max cur bgc := by
  unfold darkenRaw
  rcases le_total cur bgc with hcb | hcb
  · have hd : 0 ≤ bgc - cur := by omega
    have h1 : 0 ≤ Int.fdiv ((bgc - cur) * a) 255 :=
      Int.fdiv_nonneg (mul_nonneg hd ha0) (by norm_num)
    have h2 : Int.fdiv ((bgc - cur) * a) 255 ≤ bgc - cur := by
      rw [Int.fdiv_eq_ediv _ (by norm_num)]
      calc (bgc - cur) * a / 255 ≤ (bgc - cur) * 255 / 255 :=
            Int.ediv_le_ediv (by norm_num) (mul_le_mul_of_nonneg_left ha1 hd)
        _ = bgc - cur := Int.mul_ediv_cancel _ (by norm_num)
    rw [min_eq_left hcb, max_eq_right hcb]
    omega
  · have hd : bgc - cur ≤ 0 := by omega
    have h1 : Int.fdiv ((bgc - cur) * a) 255 ≤ 0 := by
      rw [Int.fdiv_eq_ediv _ (by norm_num)]
      calc (bgc - cur) * a / 255 ≤ 0 / 255 :=
            Int.ediv_le_ediv (by norm_num)
              (mul_nonpos_of_nonpos_of_nonneg hd ha0)
        _ = 0 := Int.zero_ediv 255
    have h2 : bgc - cur ≤ Int.fdiv ((bgc - cur) * a) 255 := by
      rw [Int.fdiv_eq_ediv _ (by norm_num)]
      calc bgc - cur = (bgc - cur) * 255 / 255 :=
            (Int.mul_ediv_cancel _ (by norm_num)).symm
        _ ≤ (bgc - cur) * a / 255 :=
            Int.ediv_le_ediv (by norm_num) (mul_le_mul_of_nonpos_left ha1 hd)
    rw [min_eq_right hcb, max_eq_left hcb]
    omega

lemma darkenChannel_full (cur bgc : ℤ) (h : bgc ≤ 255) :
    darkenChannel cur bgc 255 = bgc := by
  unfold darkenChannel darkenRaw
  rw [Int.mul_fdiv_cancel _ (by norm_num)]
  have he : cur + (bgc - cur) = bgc := by ring
  rw [he, min_eq_right h]

lemma muldiv255_zero (v : ℤ) : muldiv255 v 0 = 0 := by
  unfold muldiv255
  rw [mul_zero, zero_add]
  decide

lemma muldiv255_id (d : ℤ) (h0 : 0 ≤ d) (h1 : d ≤ 255) : muldiv255 d 255 = d := by
  unfold muldiv255
  rw [Int.fdiv_eq_ediv _ (by norm_num), Int.fdiv_eq_ediv _ (by norm_num)]
  omega

lemma blendCh_zero (s d : ℤ) (h0 : 0 ≤ d) (h1 : d ≤ 255) : blendCh 0 s d = d := by
  unfold blendCh
  rw [muldiv255_zero, sub_zero, muldiv255_id d h0 h1, add_zero]

lemma toNat_pm_one {n : ℕ} {z : ℤ} (h1 : z < (n : ℤ) + 2) (h2 : (n : ℤ) - 1 ≤ z) :
    z.toNat ≤ n + 1 ∧ n ≤ z.toNat + 1 := by
  omega

lemma fp_contract_501_1 : fp_contract 501 1 (8989220813114762 / 2 ^ 53) := by
  simp only [fp_contract, sensor_width]
  rw [abs_sub_le_iff]
  constructor <;> norm_num

lemma fp_contract_3_195 : fp_contract 3 195 (8933531975679999 / 2 ^ 38) := by
  simp only [fp_contract, sensor_width]
  rw [abs_sub_le_iff]
  constructor <;> norm_num

lemma floor_q501 : ⌊(8989220813114762 / 2 ^ 53 : ℚ)⌋ = 0 := by
  rw [Int.floor_eq_zero_iff, Set.mem_Ico]
  constructor <;> norm_num

lemma floor_q3 : ⌊(8933531975679999 / 2 ^ 38 : ℚ)⌋ = 32499 := by
  rw [Int.floor_eq_iff]
  constructor <;> norm_num

lemma blendPix_zero (s d : RGB) (h1 : 0 ≤ d.1 ∧ d.1 ≤ 255)
    (h2 : 0 ≤ d.2.1 ∧ d.2.1 ≤ 255) (h3 : 0 ≤ d.2.2 ∧ d.2.2 ≤ 255) :
    blendPix 0 s d = d := by
  obtain ⟨s1, s2, s3⟩ := s
  obtain ⟨d1, d2, d3⟩ := d
  simp only [blendPix]
  rw [blendCh_zero _ _ h1.1 h1.2, blendCh_zero _ _ h2.1 h2.2,
    blendCh_zero _ _ h3.1 h3.2]

/-- Claim C1, counterexample.  The claim says the blend weight toward the
background is at most 0.3, attained at `x = 0` (the pixel is shifted
exactly 30% of the way toward the background).  In the code, `alpha 0 =
255`, so the weight at `x = 0` is `255/255 = 1`: a white pixel's red
channel becomes the background's `15`, not the 30%-shifted value
`255 + 0.3 * (15 - 255) = 183`. -/
theorem c1_counterexample :
    alpha 0 = 255 ∧
    darkenPix 0 (255, 255, 255) = bg_color ∧
    (255 : ℤ) + 3 * ((15 : ℤ) - 255) / 10 = 183 ∧
    bg_color.1 ≠ 183 :=
  ⟨by decide, by decide, by decide, by decide⟩

/-- Claim C1, amended: the blend weight toward the background color is
`alpha x / 255` with `alpha x = ⌊255 * (1 - 0.3 * x / sensor_x)⌋`.  It is
maximal at `x = 0`, where `alpha 0 = 255` and the pixel is moved all the
way to the background color; it decreases weakly in `x` down to
`alpha (sensor_x - 1) = 178` (weight about 0.70) at the column just left
of the pasted asset, and never gets anywhere near zero. -/
theorem c1_gradient_weight :
    alpha 0 = 255 ∧
    alpha (sensor_x - 1) = 178 ∧
    (∀ c : RGB, darkenPix 0 c = bg_color) ∧
    (∀ x y : ℕ, x ≤ y → alpha y ≤ alpha x) ∧
    (∀ x : ℕ, x < sensor_x → 178 ≤ alpha x) := by
  have hmono : ∀ x y : ℕ, x ≤ y → alpha y ≤ alpha x := by
    intro x y hxy
    simp only [alpha, sensor_x, width, sensor_width]
    omega
  refine ⟨by decide, by decide, ?_, hmono, ?_⟩
  · intro c
    obtain ⟨r, g, b⟩ := c
    have h0 : alpha 0 = 255 := by decide
    show (darkenChannel r bg_color.1 (alpha 0 : ℤ),
          darkenChannel g bg_color.2.1 (alpha 0 : ℤ),
          darkenChannel b bg_color.2.2 (alpha 0 : ℤ)) = bg_color
    rw [h0]
    have hc : ((255 : ℕ) : ℤ) = 255 := by norm_num
    rw [hc]
    show (darkenChannel r 15 255, darkenChannel g 23 255,
          darkenChannel b 42 255) = bg_color
    rw [darkenChannel_full r 15 (by norm_num),
      darkenChannel_full g 23 (by norm_num),
      darkenChannel_full b 42 (by norm_num)]
    rfl
  · intro x hx
    have h1 : x ≤ sensor_x - 1 := by omega
    calc (178 : ℕ) = alpha (sensor_x - 1) := by decide
      _ ≤ alpha x := hmono x (sensor_x - 1) h1

/-- Claim C1 amended, witness: concrete instances of the monotonicity and
lower-bound conjuncts. -/
theorem c1_gradient_weight_witness :
    alpha 200 ≤ alpha 100 ∧ 178 ≤ alpha 479 :=
  ⟨c1_gradient_weight.2.2.2.1 100 200 (by decide),
   c1_gradient_weight.2.2.2.2 479 (by decide)⟩

/-- Claim C2, counterexample.  The accent rectangle spans rows `line_y`
to `line_y + 3` (190 to 193); the subtitle is drawn at row `subtitle_y`
(210).  Neither rectangle row is greater than the subtitle row, so the
rectangle is not below the subtitle text. -/
theorem c2_counterexample :
    ¬ (subtitle_y < line_y) ∧ ¬ (subtitle_y < line_y + 3) := by
  decide

/-- Claim C2, amended: the accent rectangle is drawn above the subtitle
text, `line_y = subtitle_y - 20`, so its rows lie strictly between the
second title row (`title_y + 55`) and the subtitle row. -/
theorem c2_accent_position :
    line_y = subtitle_y - 20 ∧ line_y + 3 < subtitle_y ∧ title_y + 55 < line_y := by
  decide

/-- Claim C3, counterexample.  Line 19 truncates a double-precision
approximation of `h * (500 / w)`; it neither rounds to nearest nor always
reproduces the exact floor.  At width 501, height 1 the machine evaluates
`1 * (500 / 501)` to the double `8989220813114762 / 2 ^ 53` (within the
error contract), whose truncation is 0 while round-to-nearest of the
ratio is 1.  At width 3, height 195 the machine evaluates `195 * (500/3)`
to `8933531975679999 / 2 ^ 38` (within the contract), whose truncation is
32499 while the exact ratio is the integer 32500 — both its floor and its
rounding — so the computed height also differs from the exact
`⌊h * 500 / w⌋` there. -/
theorem c3_counterexample :
    fp_contract 501 1 (8989220813114762 / 2 ^ 53) ∧
    sensor_height_fp (8989220813114762 / 2 ^ 53) = 0 ∧
    sensor_height_spec 501 1 = 1 ∧
    fp_contract 3 195 (8933531975679999 / 2 ^ 38) ∧
    sensor_height_fp (8933531975679999 / 2 ^ 38) = 32499 ∧
    sensor_height_spec 3 195 = 32500 ∧
    sensor_height 3 195 = 32500 := by
  refine ⟨fp_contract_501_1, ?_, by decide, fp_contract_3_195, ?_, by decide,
    by decide⟩
  · simp [sensor_height_fp, floor_q501]
  · simp [sensor_height_fp, floor_q3]

/-- Claim C3, amended: for every input asset with PNG-representable
dimensions (`1 ≤ w, h < 2 ^ 31`) and every value `q` of line 19's double
computation admitted by the IEEE error contract, the resized height is
the truncation of `q` and lies within one of the exact `⌊h * 500 / w⌋`:
the aspect ratio is preserved up to one pixel by truncating an
approximation of the ratio, not by rounding the exact ratio to
nearest. -/
theorem c3_height_fp (w h : ℕ) (q : ℚ) (hw1 : 1 ≤ w) (hw2 : w < 2 ^ 31)
    (hh1 : 1 ≤ h) (hh2 : h < 2 ^ 31) (hq : fp_contract w h q) :
    sensor_height_fp q ≤ sensor_height w h + 1 ∧
    sensor_height w h ≤ sensor_height_fp q + 1 := by
  have hw0n : 0 < w := hw1
  have hw0 : (0 : ℚ) < (w : ℚ) := by exact_mod_cast hw0n
  set E : ℚ := (h : ℚ) * ((sensor_width : ℚ) / (w : ℚ)) with hEdef
  have hq' : |q - E| ≤ E * (1 / 2 ^ 51) := hq
  have hE2 : E = ((h * sensor_width : ℕ) : ℚ) / ((w : ℕ) : ℚ) := by
    rw [hEdef]
    push_cast
    ring
  have hfloorE : ⌊E⌋ = ((h * sensor_width / w : ℕ) : ℤ) := by
    rw [hE2, Rat.floor_natCast_div_natCast]
    norm_cast
  have hsw : (sensor_width : ℚ) / (w : ℚ) ≤ 500 := by
    have h5 : (sensor_width : ℚ) / (w : ℚ) ≤ (sensor_width : ℚ) :=
      div_le_self (by positivity) (by exact_mod_cast hw1)
    have h6 : ((sensor_width : ℕ) : ℚ) = 500 := by norm_num [sensor_width]
    rw [h6] at h5
    exact h5
  have hh31 : (h : ℚ) ≤ 2 ^ 31 := by exact_mod_cast le_of_lt hh2
  have hub : E ≤ 2 ^ 31 * 500 := by
    rw [hEdef]
    calc (h : ℚ) * ((sensor_width : ℚ) / (w : ℚ)) ≤ (h : ℚ) * 500 :=
          mul_le_mul_of_nonneg_left hsw (by positivity)
      _ ≤ 2 ^ 31 * 500 := mul_le_mul_of_nonneg_right hh31 (by norm_num)
  have hsmall : E * (1 / 2 ^ 51) < 1 := by
    have h6 : E * (1 / 2 ^ 51) ≤ (2 ^ 31 * 500) * (1 / 2 ^ 51) :=
      mul_le_mul_of_nonneg_right hub (by norm_num)
    have h7 : ((2 ^ 31 * 500 : ℚ)) * (1 / 2 ^ 51) < 1 := by norm_num
    linarith
  have habs := abs_le.mp hq'
  have hq1 : q < E + 1 := by linarith [habs.2]
  have hq2 : E - 1 < q := by linarith [habs.1]
  have hup : ⌊q⌋ < ⌊E⌋ + 2 := by
    have h8 : E < (⌊E⌋ : ℚ) + 1 := Int.lt_floor_add_one E
    have h9 : ((⌊q⌋ : ℤ) : ℚ) ≤ q := Int.floor_le q
    have h10 : ((⌊q⌋ : ℤ) : ℚ) < ((⌊E⌋ : ℤ) : ℚ) + 2 := by linarith
    exact_mod_cast h10
  have hlo : ⌊E⌋ - 1 ≤ ⌊q⌋ := by
    apply Int.le_floor.mpr
    have h11 : ((⌊E⌋ : ℤ) : ℚ) ≤ E := Int.floor_le E
    push_cast
    linarith
  rw [hfloorE] at hup hlo
  have hfin := toNat_pm_one hup hlo
  simpa [sensor_height_fp, sensor_height] using hfin

/-- Claim C3 amended, witness at width 3, height 195 with the actual
machine double, whose truncation is one below the exact floor. -/
theorem c3_height_fp_witness :
    sensor_height_fp (8933531975679999 / 2 ^ 38) ≤ sensor_height 3 195 + 1 ∧
    sensor_height 3 195 ≤ sensor_height_fp (8933531975679999 / 2 ^ 38) + 1 :=
  c3_height_fp 3 195 (8933531975679999 / 2 ^ 38) (by decide) (by decide)
    (by decide) (by decide) fp_contract_3_195

/-- Claim C4, counterexample.  An asset in mode `LA` carries per-pixel
transparency, and the concrete `la_asset` is fully transparent everywhere;
yet because its mode is not the literal `RGBA`, line 25 passes mask `None`
and the paste overwrites the destination pixel with the asset's color
instead of keeping the background. -/
theorem c4_counterexample :
    la_asset.mode = Mode.LA ∧
    la_asset.alpha (20, 40) = 0 ∧
    base_canvas.px (500, 100) = bg_color ∧
    (paste base_canvas la_asset (480, 60)).px (500, 100) = (0, 0, 0) ∧
    ((0, 0, 0) : RGB) ≠ bg_color := by
  refine ⟨rfl, rfl, rfl, ?_, by decide⟩
  decide

/-- Claim C4, amended: inside the pasted region, the paste is masked by
the asset's own alpha channel exactly when the asset's mode is `RGBA` (a
destination pixel under a fully transparent source pixel then keeps its
prior color); for an asset of any other mode — including `LA`, which also
carries per-pixel transparency — the paste overwrites the destination
with the asset's pixel value. -/
theorem c4_paste_mask (img : Canvas) (a : Asset) (pos : ℤ × ℤ) (qx qy : ℕ)
    (hx1 : pos.1 ≤ (qx : ℤ)) (hx2 : (qx : ℤ) < pos.1 + (a.w : ℤ))
    (hy1 : pos.2 ≤ (qy : ℤ)) (hy2 : (qy : ℤ) < pos.2 + (a.h : ℤ)) :
    (a.mode = Mode.RGBA →
      a.alpha (((qx : ℤ) - pos.1).toNat, ((qy : ℤ) - pos.2).toNat) = 0 →
      (0 ≤ (img.px (qx, qy)).1 ∧ (img.px (qx, qy)).1 ≤ 255) →
      (0 ≤ (img.px (qx, qy)).2.1 ∧ (img.px (qx, qy)).2.1 ≤ 255) →
      (0 ≤ (img.px (qx, qy)).2.2 ∧ (img.px (qx, qy)).2.2 ≤ 255) →
      (paste img a pos).px (qx, qy) = img.px (qx, qy)) ∧
    (a.mode ≠ Mode.RGBA →
      (paste img a pos).px (qx, qy)
        = a.rgb (((qx : ℤ) - pos.1).toNat, ((qy : ℤ) - pos.2).toNat)) := by
  constructor
  · intro hm ha hb1 hb2 hb3
    simp only [paste]
    rw [if_pos ⟨hx1, hx2, hy1, hy2⟩, if_pos hm, ha]
    exact blendPix_zero _ _ hb1 hb2 hb3
  · intro hm
    simp only [paste]
    rw [if_pos ⟨hx1, hx2, hy1, hy2⟩, if_neg hm]

/-- Claim C4 amended, witness: a fully transparent RGBA asset pasted onto
the fresh canvas leaves the probed pixel at the background color. -/
theorem c4_paste_mask_witness :
    (paste base_canvas rgba_asset (480, 60)).px (500, 100)
      = base_canvas.px (500, 100) :=
  (c4_paste_mask base_canvas rgba_asset (480, 60) 500 100
    (by decide) (by decide) (by decide) (by decide)).1
    rfl rfl (by decide) (by decide) (by decide)

/-- Claim C5: for every input asset of positive dimensions, and whatever
the resampler, the font environment and the glyph renderer do, the final
raster has the configured dimensions, width 1000 and height 420. -/
theorem c5_output_dims (resample : Resample) (a : Asset) (fails : FailOracle)
    (render : Renderer) (hw : 0 < a.w) (hh : 0 < a.h) :
    (pipeline resample a fails render).w = width ∧
    (pipeline resample a fails render).h = height := by
  constructor <;>
    simp [pipeline, drawRect, drawText, paste, imageNew,
      gradientLoop_w, gradientLoop_h]

/-- Claim C5, witness at a concrete 1x1 asset. -/
theorem c5_output_dims_witness :
    (pipeline triv_resample unit_asset triv_fails triv_render).w = width ∧
    (pipeline triv_resample unit_asset triv_fails triv_render).h = height :=
  c5_output_dims triv_resample unit_asset triv_fails triv_render
    (by decide) (by decide)

/-- Claim C6: the gradient weight at the leftmost column (`alpha 0 = 255`)
is strictly greater than the weight at the column immediately left of the
pasted asset (`alpha (sensor_x - 1) = 178`). -/
theorem c6_weight_strict : alpha (sensor_x - 1) < alpha 0 := by decide

/-- Claim C7: whatever the font environment, the three font handles are
either all the named truetype font or all the built-in default (no mixed
state), and if any of the three loads fails then all three are the
default; the failure is absorbed, never propagated (`loadFonts` is
total). -/
theorem c7_font_fallback (fails : FailOracle) :
    (loadFonts fails = (Font.default, Font.default, Font.default) ∨
      loadFonts fails
        = (Font.truetype arialName 48, Font.truetype arialName 28,
           Font.truetype arialName 20)) ∧
    ((fails arialName 48 || fails arialName 28 || fails arialName 20) = true →
      loadFonts fails = (Font.default, Font.default, Font.default)) := by
  unfold loadFonts
  constructor
  · split_ifs <;> simp
  · intro h
    split_ifs with h1 h2 h3
    · rfl
    · rfl
    · rfl
    · exfalso
      simp only [Bool.not_eq_true] at h1 h2 h3
      rw [h1, h2, h3] at h
      exact absurd h (by decide)

/-- Claim C7, witness: an environment in which the 48-point load fails
yields the all-default triple. -/
theorem c7_font_fallback_witness :
    loadFonts (fun _ s => s == 48)
      = (Font.default, Font.default, Font.default) :=
  (c7_font_fallback (fun _ s => s == 48)).2 (by decide)

/-- Claim C8: the gradient loop leaves every pixel in columns
`x ≥ sensor_x` — the pasted asset region included — unchanged. -/
theorem c8_gradient_frame (img : Canvas) (qx qy : ℕ) (hx : sensor_x ≤ qx) :
    (gradientLoop img).px (qx, qy) = img.px (qx, qy) := by
  rw [gradientLoop_px, if_neg (by omega : ¬(qx < sensor_x ∧ qy < height))]

/-- Claim C8, witness at the first asset column of the fresh canvas. -/
theorem c8_gradient_frame_witness :
    (gradientLoop base_canvas).px (480, 0) = base_canvas.px (480, 0) :=
  c8_gradient_frame base_canvas 480 0 (by decide)

/-- Claim C9: the pipeline is a deterministic function of its inputs —
two runs on equal background-independent inputs (asset, resampler, font
environment, glyph renderer) produce equal rasters. -/
theorem c9_deterministic (r1 r2 : Resample) (a1 a2 : Asset) (f1 f2 : FailOracle)
    (t1 t2 : Renderer) (hr : r1 = r2) (ha : a1 = a2) (hf : f1 = f2)
    (ht : t1 = t2) :
    pipeline r1 a1 f1 t1 = pipeline r2 a2 f2 t2 := by
  rw [hr, ha, hf, ht]

/-- Claim C9, witness: two runs on the same concrete inputs agree. -/
theorem c9_deterministic_witness :
    pipeline triv_resample unit_asset triv_fails triv_render
      = pipeline triv_resample unit_asset triv_fails triv_render :=
  c9_deterministic _ _ _ _ _ _ _ _ rfl rfl rfl rfl

/-- Claim C10: with channel values and alpha in `[0, 255]`, the raw
update `current + (bg - current) * alpha // 255` always lies between the
current and background channel values (inclusive), hence in `[0, 255]`;
the `min 255` clamp is the identity there, and the missing lower clamp
can never be hit. -/
theorem c10_blend_bounds (cur bgc a : ℤ)
    (hc : 0 ≤ cur ∧ cur ≤ 255) (hb : 0 ≤ bgc ∧ bgc ≤ 255)
    (ha : 0 ≤ a ∧ a ≤ 255) :
    min cur bgc ≤ darkenRaw cur bgc a ∧
    darkenRaw cur bgc a ≤ max cur bgc ∧
    darkenChannel cur bgc a = darkenRaw cur bgc a ∧
    0 ≤ darkenChannel cur bgc a ∧ darkenChannel cur bgc a ≤ 255 := by
  have hbd := darkenRaw_bounds cur bgc a ha.1 ha.2
  have hle : darkenRaw cur bgc a ≤ 255 := le_trans hbd.2 (max_le hc.2 hb.2)
  have hclamp : darkenChannel cur bgc a = darkenRaw cur bgc a :=
    min_eq_right hle
  refine ⟨hbd.1, hbd.2, hclamp, ?_, ?_⟩
  · rw [hclamp]
    exact le_trans (le_min hc.1 hb.1) hbd.1
  · rw [hclamp]
    exact hle

/-- Claim C10, witness at `current = 100`, `bg = 15`, `alpha = 178`. -/
theorem c10_blend_bounds_witness :
    min 100 15 ≤ darkenRaw 100 15 178 ∧
    darkenRaw 100 15 178 ≤ max 100 15 ∧
    darkenChannel 100 15 178 = darkenRaw 100 15 178 ∧
    0 ≤ darkenChannel 100 15 178 ∧ darkenChannel 100 15 178 ≤ 255 :=
  c10_blend_bounds 100 15 178 (by decide) (by decide) (by decide)

end GenerateHero
